import Mathlib

/-!
Verification of the luci-go client archiver specification.

The archiver accepts push requests for files and byte streams, hashes the
content, deduplicates in-flight requests for the same file path, asks a
content-addressed store which digests are missing, uploads those, and tracks
hit/miss statistics.  The concurrent pipeline is embedded here as a
deterministic state machine: push operations enqueue jobs without blocking,
and `close` is the join barrier that drains the queue, matching the spec's
guarantee that per-request outcomes are deterministic functions of content.
-/

/-- Modelled from the spec: the content digest is "a deterministic content
digest" rendered as "a fixed-length lowercase hexadecimal string"; the hashing
code itself (`isolated.HashBytes`) is not part of the sources, but the spec's
concrete test vectors (empty content and "foo") pin it down as SHA-1.  This is
a 32-bit left rotation used by the SHA-1 compression function. -/
def rotl (s x : Nat) : Nat :=
  ((x <<< s) ||| (x >>> (32 - s))) % 4294967296

/-- Modelled from the spec: SHA-1 message padding — append the byte 0x80,
then zero bytes until the length is 56 mod 64, then the 8-byte big-endian
bit length of the original message. -/
def sha1pad (msg : List Nat) : List Nat :=
  let l := msg.length
  let k := (119 - (l % 64)) % 64
  let bits := 8 * l
  msg ++ [128] ++ List.replicate k 0 ++
    [(bits >>> 56) % 256, (bits >>> 48) % 256, (bits >>> 40) % 256,
     (bits >>> 32) % 256, (bits >>> 24) % 256, (bits >>> 16) % 256,
     (bits >>> 8) % 256, bits % 256]

/-- Modelled from the spec: split a byte list into 64-byte blocks, with
explicit fuel so that the recursion is structural. -/
def chunks64Fuel : Nat → List Nat → List (List Nat)
  | 0, _ => []
  | _, [] => []
  | fuel + 1, l => l.take 64 :: chunks64Fuel fuel (l.drop 64)

/-- Modelled from the spec: split a padded message into 64-byte blocks. -/
def chunks64 (l : List Nat) : List (List Nat) :=
  chunks64Fuel l.length l

/-- Modelled from the spec: pack bytes into big-endian 32-bit words. -/
def bytesToWords : List Nat → List Nat
  | a :: b :: c :: d :: rest =>
      (a * 16777216 + b * 65536 + c * 256 + d) :: bytesToWords rest
  | _ => []

/-- Modelled from the spec: SHA-1 message-schedule extension of the 16
block words to 80 words. -/
def extendWords (w : List Nat) : Nat → List Nat
  | 0 => w
  | fuel + 1 =>
      let n := w.length
      let x := rotl 1 ((w.getD (n - 3) 0) ^^^ (w.getD (n - 8) 0) ^^^
                       (w.getD (n - 14) 0) ^^^ (w.getD (n - 16) 0))
      extendWords (w ++ [x]) fuel

/-- Modelled from the spec: the SHA-1 round function, by round index. -/
def sha1f (i b c d : Nat) : Nat :=
  if i < 20 then (b &&& c) ||| ((b ^^^ 4294967295) &&& d)
  else if i < 40 then b ^^^ c ^^^ d
  else if i < 60 then (b &&& c) ||| (b &&& d) ||| (c &&& d)
  else b ^^^ c ^^^ d

/-- Modelled from the spec: the SHA-1 round constants, by round index. -/
def sha1k (i : Nat) : Nat :=
  if i < 20 then 1518500249
  else if i < 40 then 1859775393
  else if i < 60 then 2400959708
  else 3395469782

/-- Modelled from the spec: one round of the SHA-1 compression function. -/
def sha1Round (st : Nat × Nat × Nat × Nat × Nat) (iw : Nat × Nat) :
    Nat × Nat × Nat × Nat × Nat :=
  let (a, b, c, d, e) := st
  let (i, w) := iw
  let temp := (rotl 5 a + sha1f i b c d + e + sha1k i + w) % 4294967296
  (temp, a, rotl 30 b, c, d)

/-- Modelled from the spec: process one 64-byte block, updating the five
32-bit hash words. -/
def sha1Chunk (h : Nat × Nat × Nat × Nat × Nat) (chunk : List Nat) :
    Nat × Nat × Nat × Nat × Nat :=
  let w := extendWords (bytesToWords chunk) 64
  let (a, b, c, d, e) := ((List.range 80).zip w).foldl sha1Round h
  let (h0, h1, h2, h3, h4) := h
  ((h0 + a) % 4294967296, (h1 + b) % 4294967296, (h2 + c) % 4294967296,
   (h3 + d) % 4294967296, (h4 + e) % 4294967296)

/-- Modelled from the spec: big-endian byte decomposition of a 32-bit word. -/
def wordBytes (x : Nat) : List Nat :=
  [(x >>> 24) % 256, (x >>> 16) % 256, (x >>> 8) % 256, x % 256]

/-- Modelled from the spec: the full SHA-1 digest of a byte sequence, as the
20 output bytes. -/
def sha1Bytes (msg : List Nat) : List Nat :=
  let (h0, h1, h2, h3, h4) :=
    (chunks64 (sha1pad msg)).foldl sha1Chunk
      (1732584193, 4023233417, 2562383102, 271733878, 3285377520)
  wordBytes h0 ++ wordBytes h1 ++ wordBytes h2 ++ wordBytes h3 ++ wordBytes h4

/-- Lowercase hexadecimal character for a value below 16. -/
def hexChar (n : Nat) : Char :=
  if n < 10 then Char.ofNat (48 + n) else Char.ofNat (87 + n)

/-- Two lowercase hexadecimal characters for a byte. -/
def byteHex (b : Nat) : List Char :=
  [hexChar (b / 16), hexChar (b % 16)]

/-- Modelled from the spec: a digest is "a fixed-length lowercase hexadecimal
string derived deterministically from byte content". -/
def sha1Hex (msg : List Nat) : String :=
  String.mk (((sha1Bytes msg).map byteHex).flatten)

/-- Modelled from the spec: thread-safe running totals of hits/misses and
bytes, "monotonically increasing counters — hit count, miss count, bytes-hit,
bytes-pushed", updated exactly once per completed request. -/
structure Stats where
  hits : Nat
  misses : Nat
  bytesHits : Nat
  bytesPushed : Nat
deriving DecidableEq, Repr

/-- Modelled from the spec: a push request's content source is "either a
filesystem path or a seekable byte stream"; a stream carries its logical
content, the current read-cursor offset, and whether it can be repositioned. -/
inductive Source where
  | path (p : String)
  | stream (content : List Nat) (offset : Nat) (seekable : Bool)
deriving DecidableEq, Repr

/-- Modelled from the spec: the Future handle returned to callers, exposing
the display name, the digest once hashed, and the terminal error; `resolved`
records that the request reached its terminal Done state. -/
structure FutureCell where
  displayName : String
  digest : Option String
  error : Option String
  resolved : Bool
deriving DecidableEq, Repr

/-- Modelled from the spec: a queued hash job carrying the request's source
and the index of the Future it must resolve. -/
structure Job where
  idx : Nat
  name : String
  src : Source
deriving DecidableEq, Repr

/-- Modelled from the spec: the Archiver state — the content-addressed store
(digest-keyed contents), the stats aggregator, the dedup map from canonical
file path to Future index, the Futures issued so far, the queue of pending
hash jobs, the error channel, the remembered terminal error, and the closed
flag.  `hashCount` and `containsCount` count hash computations and per-digest
store-existence checks, to state the dedup claims.  The real pipeline is
concurrent; the spec guarantees per-request outcomes are deterministic
functions of content, so it is embedded as a deterministic machine in which
pushes enqueue work and `close` is the join barrier that drains it. -/
structure ArchiverState where
  store : List (String × List Nat)
  stats : Stats
  dedup : List (String × Nat)
  futures : List FutureCell
  queue : List Job
  channel : List String
  terminalErr : Option String
  closed : Bool
  hashCount : Nat
  containsCount : Nat
deriving DecidableEq, Repr

/-- Modelled from the spec: the constructor `New(client, out)` — a fresh open
Archiver over a store holding the given contents, with all counters zero. -/
def newArchiver (store : List (String × List Nat)) : ArchiverState :=
  { store := store, stats := ⟨0, 0, 0, 0⟩, dedup := [], futures := [],
    queue := [], channel := [], terminalErr := none, closed := false,
    hashCount := 0, containsCount := 0 }

/-- Modelled from the spec: `PushFile(displayName, path)` — if the Archiver
is closed, return no Future; if the canonical path is already in the dedup
map, return the mapped Future directly without enqueueing work or touching
Stats; otherwise create a new Future, record it under the path, and enqueue
a hash job. -/
def pushFile (s : ArchiverState) (name p : String) :
    ArchiverState × Option Nat :=
  if s.closed then (s, none)
  else
    match s.dedup.lookup p with
    | some i => (s, some i)
    | none =>
        let i := s.futures.length
        ({ s with
            futures := s.futures ++ [⟨name, none, none, false⟩],
            dedup := (p, i) :: s.dedup,
            queue := s.queue ++ [⟨i, name, Source.path p⟩] }, some i)

/-- Modelled from the spec: `Push(displayName, stream)` — stream-backed
pushes have no dedup key ("never deduplicated against each other since their
identity is not known before hashing"); a new Future is created and a hash
job enqueued, unless the Archiver is closed. -/
def push (s : ArchiverState) (name : String) (content : List Nat)
    (offset : Nat) (seekable : Bool) : ArchiverState × Option Nat :=
  if s.closed then (s, none)
  else
    let i := s.futures.length
    ({ s with
        futures := s.futures ++ [⟨name, none, none, false⟩],
        queue := s.queue ++ [⟨i, name, Source.stream content offset seekable⟩] },
     some i)

/-- The descriptive error reported when hashing a nonexistent file, as in
the test's expectation string. -/
def readErrMsg (name p : String) : String :=
  "hash(" ++ name ++ ") failed: open " ++ p ++ ": no such file or directory\n"

/-- The error reported when a stream at a non-zero offset cannot be
repositioned to the start. -/
def seekErrMsg (name : String) : String :=
  "hash(" ++ name ++ ") failed: seek to start failed\n"

/-- Modelled from the spec: reading a request's content for hashing.  A file
path is read through the (external) filesystem, an association list from
path to content; a missing file is a descriptive per-request error.  A
stream "whose stream was already partially consumed (non-zero read cursor)
must be repositioned to the start before hashing"; failing to reposition an
unseekable source at a non-zero offset "is a hashing error, not a silent
wrong-digest". -/
def readSource (fs : List (String × List Nat)) (name : String) :
    Source → Except String (List Nat)
  | Source.path p =>
      match fs.lookup p with
      | some c => Except.ok c
      | none => Except.error (readErrMsg name p)
  | Source.stream c off seekable =>
      if off == 0 then Except.ok c
      else if seekable then Except.ok c
      else Except.error (seekErrMsg name)

/-- Apply a function to the Future cell at the given index. -/
def updateAt (l : List FutureCell) (i : Nat)
    (f : FutureCell → FutureCell) : List FutureCell :=
  match l.get? i with
  | some c => l.set i (f c)
  | none => l

/-- Modelled from the spec: processing one hash job to completion.  A read
failure marks the Future Done with a descriptive error, pushes the error
onto the error channel, remembers it as the terminal error if none is set,
and touches neither hit nor miss counters.  On success the digest is
computed and recorded on the Future, the store is asked whether it already
holds the digest (one existence check); a hit increments the hit count and
bytes-hit by the content length with no upload, a miss uploads the content
and increments the miss count and bytes-pushed by the content length; either
way the Future resolves to Done with no error. -/
def processJob (fs : List (String × List Nat)) (s : ArchiverState)
    (j : Job) : ArchiverState :=
  match readSource fs j.name j.src with
  | Except.error e =>
      { s with
        hashCount := s.hashCount + 1,
        futures := updateAt s.futures j.idx
          (fun c => { c with error := some e, resolved := true }),
        channel := s.channel ++ [e],
        terminalErr :=
          match s.terminalErr with
          | some t => some t
          | none => some e }
  | Except.ok content =>
      let d := sha1Hex content
      let hashed :=
        { s with
          hashCount := s.hashCount + 1,
          containsCount := s.containsCount + 1,
          futures := updateAt s.futures j.idx
            (fun c => { c with digest := some d }) }
      match hashed.store.lookup d with
      | some _ =>
          { hashed with
            stats :=
              { hashed.stats with
                hits := hashed.stats.hits + 1,
                bytesHits := hashed.stats.bytesHits + content.length },
            futures := updateAt hashed.futures j.idx
              (fun c => { c with resolved := true }) }
      | none =>
          { hashed with
            store := hashed.store ++ [(d, content)],
            stats :=
              { hashed.stats with
                misses := hashed.stats.misses + 1,
                bytesPushed := hashed.stats.bytesPushed + content.length },
            futures := updateAt hashed.futures j.idx
              (fun c => { c with resolved := true }) }

/-- Modelled from the spec: `Close()` — the join barrier: stop accepting new
work, drain all enqueued hashing and upload activity, transition to Closed,
and return the remembered terminal error (nil on full success, the first
terminal error observed otherwise). -/
def close (fs : List (String × List Nat)) (s : ArchiverState) :
    ArchiverState × Option String :=
  let s' := s.queue.foldl (processJob fs) s
  ({ s' with queue := [], closed := true }, s'.terminalErr)

/-!
The hosting CLI's archive command (`archiveRun` in
`client/cmd/isolate/archive.go`): `main` archives the isolate tree, takes the
future's error, falls back to `Close()`'s error, and prints the hit/miss and
byte statistics to stderr only when the `Quiet` flag is not set; `Run` exits
1 when flag parsing, tracing startup, or `main` reports an error, 0 otherwise.
-/

/-- Outcome of `archiveRun.main` in `client/cmd/isolate/archive.go`: whether
the stats block was printed, and the error returned to `Run`. -/
structure ArchiveMainResult where
  statsReported : Bool
  err : Option String
deriving DecidableEq, Repr

/-- `archiveRun.main`: `err = future.Error()`; if that is nil, `err` becomes
`arch.Close()`'s error; the `Hits`/`Misses` statistics lines are printed only
`if !c.defaultFlags.Quiet`. -/
def archiveMain (quiet : Bool) (futureErr closeErr : Option String) :
    ArchiveMainResult :=
  let err :=
    match futureErr with
    | some e => some e
    | none => closeErr
  { statsReported := !quiet, err := err }

/-- `archiveRun.Run`: returns 1 if `Parse` fails, 1 if `StartTracing` fails,
1 if `main` returns a non-nil error, and 0 otherwise. -/
def archiveRunExit (parseErr tracingErr : Option String) (quiet : Bool)
    (futureErr closeErr : Option String) : Nat :=
  match parseErr with
  | some _ => 1
  | none =>
      match tracingErr with
      | some _ => 1
      | none =>
          match (archiveMain quiet futureErr closeErr).err with
          | some _ => 1
          | none => 0

/-!
The OAuth token serialization of `common/auth/internal`: `oauthTokenProvider`
marshals a token to a versioned, flavored on-disk record holding the access
token, the refresh token, and the expiry as whole Unix seconds, and
unmarshaling validates the version and flavor before rebuilding the token.
-/

/-- A Go `time.Time` instant: whole Unix seconds plus a nanosecond part in
`[0, 10^9)`; `Unix()` returns the seconds. -/
structure GoTime where
  sec : Int
  nsec : Nat
deriving DecidableEq, Repr

/-- Go `time.Time.Unix()`: the whole-second part of the instant. -/
def GoTime.unix (t : GoTime) : Int := t.sec

/-- Go `time.Unix(sec, 0)`: the instant with the given seconds and zero
nanoseconds. -/
def timeUnix (sec : Int) : GoTime := ⟨sec, 0⟩

/-- An `oauth2.Token` as used by `tokenImpl`: access token, refresh token,
and expiry instant. -/
structure OAuth2Token where
  accessToken : String
  refreshToken : String
  expiry : GoTime
deriving DecidableEq, Repr

/-- `tokenOnDisk`: the JSON-serialized record — format version, token flavor,
access token, refresh token, and expiry in Unix seconds.  JSON encoding and
decoding of this flat record is treated as transparent. -/
structure TokenOnDisk where
  version : String
  flavor : String
  accessToken : String
  refreshToken : String
  expiresAtSec : Int
deriving DecidableEq, Repr

/-- `tokFormatVersion`: the current on-disk token format version. -/
def tokFormatVersion : String := "1"

/-- `oauthTokenProvider`: the flavor tags tokens on disk; `interactive` is
reported by `RequiresInteraction`. -/
structure OauthTokenProvider where
  interactive : Bool
  tokenFlavor : String
deriving DecidableEq, Repr

/-- `oauthTokenProvider.MarshalToken`: records the format version, the
provider's flavor, the access and refresh tokens, and `Expiry.Unix()`. -/
def OauthTokenProvider.MarshalToken (p : OauthTokenProvider)
    (t : OAuth2Token) : TokenOnDisk :=
  { version := tokFormatVersion, flavor := p.tokenFlavor,
    accessToken := t.accessToken, refreshToken := t.refreshToken,
    expiresAtSec := t.expiry.unix }

/-- `oauthTokenProvider.UnmarshalToken`: rejects a record whose version is
not `tokFormatVersion` or whose flavor is not the provider's, and otherwise
rebuilds the token with expiry `time.Unix(ExpiresAtSec, 0)`. -/
def OauthTokenProvider.UnmarshalToken (p : OauthTokenProvider)
    (d : TokenOnDisk) : Except String OAuth2Token :=
  if d.version ≠ tokFormatVersion then
    Except.error ("auth: bad token version " ++ d.version ++
      ", expected " ++ tokFormatVersion)
  else if d.flavor ≠ p.tokenFlavor then
    Except.error ("auth: bad token flavor " ++ d.flavor ++
      ", expected " ++ p.tokenFlavor)
  else
    Except.ok
      { accessToken := d.accessToken, refreshToken := d.refreshToken,
        expiry := timeUnix d.expiresAtSec }

/-- A single stream-backed push of the given content, cursor offset, and
seekability into a fresh Archiver over the given store, followed by Close:
the final state and Close's returned error. -/
def streamPushClose (st : List (String × List Nat)) (c : List Nat)
    (off : Nat) (sk : Bool) : ArchiverState × Option String :=
  close [] (push (newArchiver st) "req" c off sk).1

/-- The digest reported by the Future of a single stream-backed push into a
fresh Archiver over an empty store. -/
def soloPushDigest (c : List Nat) : Option (Option String) :=
  ((streamPushClose [] c 0 true).1.futures.get? 0).map FutureCell.digest

/-- The filesystem of the spec's concrete file scenario: an empty file and a
file holding the three bytes "foo". -/
def fileScenarioFS : List (String × List Nat) :=
  [("e", []), ("f", [102, 111, 111])]

/-- The spec's concrete file scenario: push the empty file once and the
"foo" file twice (the second push deduplicated), then Close. -/
def fileScenario : ArchiverState × Option String :=
  close fileScenarioFS
    (pushFile (pushFile (pushFile (newArchiver []) "e" "e").1 "f" "f").1
      "f" "f").1

/-- The cancel scenario: push a file path missing from the filesystem, then
an existing one, then Close. -/
def cancelScenario (fs : List (String × List Nat)) (n1 p n2 q : String) :
    ArchiverState × Option String :=
  close fs (pushFile (pushFile (newArchiver []) n1 p).1 n2 q).1

/-! ## Helper lemmas and concrete digest values -/

set_option maxRecDepth 10000

/-- SHA-1 of the empty byte sequence, as in the spec's concrete scenario. -/
theorem sha1Hex_nil :
    sha1Hex [] = "da39a3ee5e6b4b0d3255bfef95601890afd80709" := by decide

/-- SHA-1 of the three bytes "foo", as in the spec's concrete scenario. -/
theorem sha1Hex_foo :
    sha1Hex [102, 111, 111] =
      "0beec7b5ea3f0fdbc95d0dd47f3c5bc275da8a33" := by decide

/-- Appending a binding for a key absent from an association list makes it
found by lookup. -/
theorem lookup_append_none {α β : Type} [BEq α] [LawfulBEq α]
    (l : List (α × β)) (k : α) (v : β) (h : l.lookup k = none) :
    (l ++ [(k, v)]).lookup k = some v := by
  induction l with
  | nil => simp [List.lookup]
  | cons a t ih =>
      obtain ⟨a1, a2⟩ := a
      cases hk : (k == a1) with
      | true => simp [List.lookup, hk] at h
      | false =>
          simp only [List.lookup, hk, List.cons_append] at h ⊢
          exact ih h

/-! ## Claim theorems -/

/-- Claim C2: the digest of a push is a deterministic function of the pushed byte
content — every stream-backed push of content `c` into a fresh Archiver
reports the digest `sha1Hex c`, so two independent requests with the same
bytes report the same digest; concretely, the empty byte sequence yields
digest da39a3ee5e6b4b0d3255bfef95601890afd80709 and the three bytes "foo"
yield digest 0beec7b5ea3f0fdbc95d0dd47f3c5bc275da8a33. -/
theorem push_digest_deterministic :
    (∀ c : List Nat, soloPushDigest c = some (some (sha1Hex c))) ∧
    sha1Hex [] = "da39a3ee5e6b4b0d3255bfef95601890afd80709" ∧
    sha1Hex [102, 111, 111] =
      "0beec7b5ea3f0fdbc95d0dd47f3c5bc275da8a33" :=
  ⟨fun _ => rfl, sha1Hex_nil, sha1Hex_foo⟩

/-- Claim C8: Close on a pristine Archiver (no push operation ever called) returns
nil, and Stats shows all four counters equal to zero, whatever the store and
filesystem contents. -/
theorem close_pristine :
    ∀ (st fs : List (String × List Nat)),
      (newArchiver st).stats = ⟨0, 0, 0, 0⟩ ∧
      (close fs (newArchiver st)).2 = none ∧
      (close fs (newArchiver st)).1.stats = ⟨0, 0, 0, 0⟩ :=
  fun _ _ => ⟨rfl, rfl, rfl⟩

/-- Claim C6: on a closed Archiver, every Push and PushFile call returns no Future
and leaves the state — Stats counters and store included — unchanged. -/
theorem push_after_closed :
    ∀ (s : ArchiverState) (n p : String) (c : List Nat) (off : Nat)
      (sk : Bool), s.closed = true →
      pushFile s n p = (s, none) ∧ push s n c off sk = (s, none) := by
  intro s n p c off sk h
  constructor
  · simp [pushFile, h]
  · simp [push, h]

/-- Witness for claim C6: a concretely closed Archiver rejects a PushFile with no
Future and no state change. -/
theorem push_after_closed_witness :
    (close [] (newArchiver [])).1.closed = true ∧
    pushFile (close [] (newArchiver [])).1 "ignored" "ignored" =
      ((close [] (newArchiver [])).1, none) :=
  ⟨rfl, (push_after_closed (close [] (newArchiver [])).1 "ignored" "ignored"
    [] 0 true rfl).1⟩

/-- Claim C10: marshaling an OAuth token and unmarshaling it with the same
provider succeeds and returns a token with the same access and refresh
tokens and the expiry truncated to whole seconds; unmarshaling rejects any
record whose version is not "1" or whose flavor differs from the
provider's. -/
theorem token_marshal_roundtrip :
    (∀ (p : OauthTokenProvider) (t : OAuth2Token),
      p.UnmarshalToken (p.MarshalToken t) =
        Except.ok ⟨t.accessToken, t.refreshToken, ⟨t.expiry.sec, 0⟩⟩) ∧
    (∀ (p : OauthTokenProvider) (d : TokenOnDisk),
      d.version ≠ tokFormatVersion →
      ∃ e, p.UnmarshalToken d = Except.error e) ∧
    (∀ (p : OauthTokenProvider) (d : TokenOnDisk),
      d.flavor ≠ p.tokenFlavor →
      ∃ e, p.UnmarshalToken d = Except.error e) := by
  refine ⟨?_, ?_, ?_⟩
  · intro p t
    simp [OauthTokenProvider.UnmarshalToken, OauthTokenProvider.MarshalToken,
      timeUnix, GoTime.unix]
  · intro p d h
    simp only [OauthTokenProvider.UnmarshalToken, if_pos h]
    exact ⟨_, rfl⟩
  · intro p d h
    by_cases hv : d.version ≠ tokFormatVersion
    · simp only [OauthTokenProvider.UnmarshalToken, if_pos hv]
      exact ⟨_, rfl⟩
    · simp only [OauthTokenProvider.UnmarshalToken, if_neg hv, if_pos h]
      exact ⟨_, rfl⟩

/-- Witness for claim C10: a record with version "2" is rejected by a provider of
flavor "service_account". -/
theorem token_marshal_roundtrip_witness :
    ("2" : String) ≠ tokFormatVersion ∧
    ∃ e, OauthTokenProvider.UnmarshalToken ⟨false, "service_account"⟩
      ⟨"2", "service_account", "a", "r", 0⟩ = Except.error e :=
  ⟨by decide, token_marshal_roundtrip.2.1 ⟨false, "service_account"⟩
    ⟨"2", "service_account", "a", "r", 0⟩ (by decide)⟩

/-- Counterexample for claim C9: with the Quiet flag set, the archive command does not
report the hit/miss statistics even on a run where Close returned an error
(the exit status is still 1), so the claim's unconditional "reports the
number of hits/misses and the byte totals before exiting" fails. -/
theorem archive_quiet_no_report :
    (archiveMain true none (some "boom")).statsReported = false ∧
    archiveRunExit none none true none (some "boom") = 1 :=
  ⟨rfl, rfl⟩

/-- Claim C9 as amended: unless the Quiet flag is set, the archive command reports
the hit/miss and byte statistics before exiting; and whenever Close returns
a non-nil error the command exits with status 1 (the aggregate error alone
forces the non-zero exit, whether or not the isolate future also failed). -/
theorem archive_reports_and_exits_nonzero :
    (∀ (quiet : Bool) (futureErr closeErr : Option String),
      (archiveMain quiet futureErr closeErr).statsReported = !quiet) ∧
    (∀ (quiet : Bool) (futureErr closeErr : Option String),
      closeErr ≠ none →
      archiveRunExit none none quiet futureErr closeErr = 1) := by
  constructor
  · intro quiet futureErr closeErr
    rfl
  · intro quiet futureErr closeErr h
    unfold archiveRunExit archiveMain
    cases futureErr with
    | some e => rfl
    | none =>
        cases closeErr with
        | some e => rfl
        | none => exact absurd rfl h

/-- Witness for claim C9: a non-quiet run whose Close failed reports statistics and
exits 1. -/
theorem archive_reports_and_exits_nonzero_witness :
    (some "boom" : Option String) ≠ none ∧
    archiveRunExit none none false none (some "boom") = 1 :=
  ⟨by decide, archive_reports_and_exits_nonzero.2 false none (some "boom")
    (by decide)⟩

/-- Claim C1: a second PushFile for the same path issued before the first
call's computation completes returns the very same Future and changes
nothing — so the shared computation performs exactly one hash and one
store-existence check and bumps Stats once, never once per call with both
Futures reporting the identical digest; concretely, pushing an empty file
plus the "foo" file pushed twice yields exactly 2 hit/miss lookups, 2 hash
computations, 2 existence checks, and 3 bytes pushed across the 3 calls. -/
theorem push_file_dedup :
    (∀ (s : ArchiverState) (n1 n2 p : String) (s1 : ArchiverState) (i : Nat),
      pushFile s n1 p = (s1, some i) →
      pushFile s1 n2 p = (s1, some i)) ∧
    ((pushFile (pushFile (newArchiver []) "e" "e").1 "f" "f").2 = some 1 ∧
     (pushFile (pushFile (pushFile (newArchiver []) "e" "e").1 "f" "f").1
       "f" "f").2 = some 1 ∧
     fileScenario.1.stats = ⟨0, 2, 0, 3⟩ ∧
     fileScenario.1.hashCount = 2 ∧
     fileScenario.1.containsCount = 2 ∧
     fileScenario.1.futures.get? 1 =
       some ⟨"f", some "0beec7b5ea3f0fdbc95d0dd47f3c5bc275da8a33", none,
         true⟩ ∧
     fileScenario.1.futures.get? 0 =
       some ⟨"e", some "da39a3ee5e6b4b0d3255bfef95601890afd80709", none,
         true⟩ ∧
     fileScenario.2 = none) := by
  constructor
  · intro s n1 n2 p s1 i h
    cases hc : s.closed with
    | true => simp [pushFile, hc] at h
    | false =>
        cases hd : s.dedup.lookup p with
        | some j =>
            simp [pushFile, hc, hd] at h
            obtain ⟨rfl, rfl⟩ := h
            simp [pushFile, hc, hd]
        | none =>
            simp [pushFile, hc, hd] at h
            obtain ⟨rfl, rfl⟩ := h
            simp [pushFile, hc, List.lookup]
  · refine ⟨rfl, rfl, ?_, rfl, rfl, ?_, ?_, ?_⟩ <;> decide

/-- Witness for claim C1: duplicating a concrete PushFile returns the same
Future index 0 and leaves the state untouched. -/
theorem push_file_dedup_witness :
    pushFile (pushFile (newArchiver []) "a" "p").1 "b" "p" =
      ((pushFile (newArchiver []) "a" "p").1, some 0) :=
  push_file_dedup.1 (newArchiver []) "a" "b" "p"
    (pushFile (newArchiver []) "a" "p").1 0 rfl

/-- Claim C3: pushing content whose digest the store already holds records
exactly one hit with bytes-hit equal to the content length, performs no
upload (the store is unchanged), resolves the Future to Done with the digest
and no error, and leaves the miss count and bytes-pushed at zero. -/
theorem push_hit_records_one_hit :
    ∀ (st : List (String × List Nat)) (c c0 : List Nat),
      st.lookup (sha1Hex c) = some c0 →
      (streamPushClose st c 0 true).1.stats = ⟨1, 0, c.length, 0⟩ ∧
      (streamPushClose st c 0 true).1.store = st ∧
      (streamPushClose st c 0 true).1.futures =
        [⟨"req", some (sha1Hex c), none, true⟩] ∧
      (streamPushClose st c 0 true).2 = none := by
  intro st c c0 h
  simp [streamPushClose, close, push, newArchiver, processJob, readSource,
    updateAt, h]

/-- Witness for claim C3: pushing "foo" against a store already holding its
digest records one hit of 3 bytes. -/
theorem push_hit_records_one_hit_witness :
    (([("0beec7b5ea3f0fdbc95d0dd47f3c5bc275da8a33", [102, 111, 111])] :
        List (String × List Nat)).lookup (sha1Hex [102, 111, 111]) =
      some [102, 111, 111]) ∧
    (streamPushClose
        [("0beec7b5ea3f0fdbc95d0dd47f3c5bc275da8a33", [102, 111, 111])]
        [102, 111, 111] 0 true).1.stats = ⟨1, 0, 3, 0⟩ :=
  ⟨by decide,
   (push_hit_records_one_hit
      [("0beec7b5ea3f0fdbc95d0dd47f3c5bc275da8a33", [102, 111, 111])]
      [102, 111, 111] [102, 111, 111] (by decide)).1⟩

/-- Claim C4: pushing content whose digest the store does not hold records
exactly one miss with bytes-pushed equal to the content length, uploads the
content, and after Close the store's contents hold that content under its
digest; the hit count and bytes-hit stay at zero. -/
theorem push_miss_uploads :
    ∀ (st : List (String × List Nat)) (c : List Nat),
      st.lookup (sha1Hex c) = none →
      (streamPushClose st c 0 true).1.stats = ⟨0, 1, 0, c.length⟩ ∧
      (streamPushClose st c 0 true).1.store = st ++ [(sha1Hex c, c)] ∧
      (streamPushClose st c 0 true).1.store.lookup (sha1Hex c) = some c ∧
      (streamPushClose st c 0 true).1.futures =
        [⟨"req", some (sha1Hex c), none, true⟩] ∧
      (streamPushClose st c 0 true).2 = none := by
  intro st c h
  simp [streamPushClose, close, push, newArchiver, processJob, readSource,
    updateAt, h, lookup_append_none st (sha1Hex c) c h]

/-- Witness for claim C4: pushing "foo" into an empty store records one miss
of 3 bytes and the store afterward holds "foo" under its digest. -/
theorem push_miss_uploads_witness :
    (([] : List (String × List Nat)).lookup (sha1Hex [102, 111, 111]) =
      none) ∧
    (streamPushClose [] [102, 111, 111] 0 true).1.stats = ⟨0, 1, 0, 3⟩ ∧
    (streamPushClose [] [102, 111, 111] 0 true).1.store.lookup
      (sha1Hex [102, 111, 111]) = some [102, 111, 111] :=
  ⟨rfl,
   (push_miss_uploads [] [102, 111, 111] rfl).1,
   (push_miss_uploads [] [102, 111, 111] rfl).2.2.1⟩

/-- Claim C5: pushing a nonexistent file path resolves that request's Future
to Done with a non-nil descriptive error and no digest, contributes to
neither the hit nor the miss counters, does not abort the unrelated request
(which still resolves with its digest), delivers the error on the error
channel, and Close returns exactly that first terminal error. -/
theorem push_missing_file_error :
    ∀ (fs : List (String × List Nat)) (n1 p n2 q : String) (c : List Nat),
      fs.lookup p = none → fs.lookup q = some c → (q == p) = false →
      (pushFile (newArchiver []) n1 p).2 = some 0 ∧
      (pushFile (pushFile (newArchiver []) n1 p).1 n2 q).2 = some 1 ∧
      (cancelScenario fs n1 p n2 q).1.futures.get? 0 =
        some ⟨n1, none, some (readErrMsg n1 p), true⟩ ∧
      (cancelScenario fs n1 p n2 q).1.futures.get? 1 =
        some ⟨n2, some (sha1Hex c), none, true⟩ ∧
      (cancelScenario fs n1 p n2 q).1.stats = ⟨0, 1, 0, c.length⟩ ∧
      (cancelScenario fs n1 p n2 q).1.channel = [readErrMsg n1 p] ∧
      (cancelScenario fs n1 p n2 q).2 = some (readErrMsg n1 p) := by
  intro fs n1 p n2 q c hp hq hqp
  simp [cancelScenario, close, pushFile, newArchiver, processJob, readSource,
    updateAt, hp, hq, hqp, List.lookup]

/-- Witness for claim C5: with one missing and one existing file, the
failing Future carries the descriptive error, the other Future resolves with
the digest of "foo", and Close returns the error. -/
theorem push_missing_file_error_witness :
    (([("q", [102, 111, 111])] : List (String × List Nat)).lookup "p" =
      none) ∧
    (([("q", [102, 111, 111])] : List (String × List Nat)).lookup "q" =
      some [102, 111, 111]) ∧
    (("q" : String) == "p") = false ∧
    (cancelScenario [("q", [102, 111, 111])] "foo" "p" "existent" "q").2 =
      some (readErrMsg "foo" "p") :=
  ⟨by decide, by decide, by decide,
   (push_missing_file_error [("q", [102, 111, 111])] "foo" "p" "existent"
      "q" [102, 111, 111] (by decide) (by decide) (by decide)).2.2.2.2.2.2⟩

/-- Claim C7: a seekable stream-backed push whose read cursor is at any
non-zero offset is repositioned to the start before hashing, so the Future
reports the digest of the full logical content; an unseekable source at a
non-zero offset terminates with a hashing error and no digest, leaving Stats
untouched; concretely, a reader over "foo" seeked to offset 1 still yields
the digest of "foo". -/
theorem push_seeked_stream :
    (∀ (c : List Nat) (off : Nat),
      (streamPushClose [] c off true).1.futures.get? 0 =
        some ⟨"req", some (sha1Hex c), none, true⟩) ∧
    (∀ (c : List Nat) (off : Nat), (off == 0) = false →
      (streamPushClose [] c off false).1.futures.get? 0 =
        some ⟨"req", none, some (seekErrMsg "req"), true⟩ ∧
      (streamPushClose [] c off false).1.stats = ⟨0, 0, 0, 0⟩ ∧
      (streamPushClose [] c off false).2 = some (seekErrMsg "req")) ∧
    (streamPushClose [] [102, 111, 111] 1 true).1.futures.get? 0 =
      some ⟨"req", some "0beec7b5ea3f0fdbc95d0dd47f3c5bc275da8a33", none,
        true⟩ := by
  have h1 : ∀ (c : List Nat) (off : Nat),
      (streamPushClose [] c off true).1.futures.get? 0 =
        some ⟨"req", some (sha1Hex c), none, true⟩ := by
    intro c off
    cases hoff : (off == 0) with
    | true =>
        simp [streamPushClose, close, push, newArchiver, processJob,
          readSource, updateAt, hoff, List.lookup]
    | false =>
        simp [streamPushClose, close, push, newArchiver, processJob,
          readSource, updateAt, hoff, List.lookup]
  refine ⟨h1, ?_, ?_⟩
  · intro c off hoff
    simp [streamPushClose, close, push, newArchiver, processJob, readSource,
      updateAt, hoff]
  · rw [h1 [102, 111, 111] 1, sha1Hex_foo]

/-- Witness for claim C7: an unseekable stream at offset 1 fails with the
seek error. -/
theorem push_seeked_stream_witness :
    (((1 : Nat) == 0) = false) ∧
    (streamPushClose [] [] 1 false).2 = some (seekErrMsg "req") :=
  ⟨by decide, (push_seeked_stream.2.1 [] 1 (by decide)).2.2⟩
